import Mathlib

/-!
Verification of the job-recommendation ranking engine of `hireonai/ml-services`.

The definitions below are a shallow embedding of the Python source:

* `src/app/utils/recommendation/recommendation_utils.py` (`merge_dataframes`,
  `create_dataframe_from_results`) — identical to the copy in
  `src/app/utils/recommendation_utils.py`;
* `src/app/api/routes/recommendation_engine_services.py` (`get_recommendations`);
* `src/app/api/recommendation_engine_services.py` (`recommendations`).

Modelling conventions:

* float distances are modelled as rationals (`ℚ`); the decimal literals
  `0.6`, `0.4`, `100` of the source appear as the corresponding rationals;
* a float `NaN` cell (as produced by a pandas outer join for a missing side,
  or by a `0/0` division) is modelled as `none : Option ℚ`;
* a pandas dataframe is modelled as the list of its rows;
* `sort_values` (pandas default quicksort, which is insertion sort — hence
  stable — on the small frames of every concrete case below) is modelled as a
  stable insertion sort on the sort key, with `NaN` keys placed last exactly
  as pandas places them (`na_position="last"`).
-/

/-- A row of the dataframe built by `create_dataframe_from_results(results,
"job_description")`: columns `id`, `job_description`, `job_description_distance`. -/
structure DescRow where
  id : String
  job_description : String
  job_description_distance : ℚ
deriving DecidableEq, Repr

/-- A row of the dataframe built by `create_dataframe_from_results(results,
"job_title")`: columns `id`, `job_title`, `job_title_distance`. -/
structure TitleRow where
  id : String
  job_title : String
  job_title_distance : ℚ
deriving DecidableEq, Repr

/-- A row of the final frame `combined_df[["id", "match_score"]]`.  The score is
an `Option ℚ` because in the two-frame path it can be `NaN` (`none`). -/
structure ScoredRow where
  id : String
  match_score : Option ℚ
deriving DecidableEq, Repr

/-- A row of `pd.merge(job_desc_df, job_title_df, on="id", how="outer")`:
a side that did not contribute the candidate has `NaN` (`none`) cells. -/
structure MergedRow where
  id : String
  job_description : Option String
  job_description_distance : Option ℚ
  job_title : Option String
  job_title_distance : Option ℚ
deriving DecidableEq, Repr

/-- Boolean comparison used to model pandas
`sort_values("match_score", ascending=False)`: larger scores first and `NaN`
(`none`) keys last, which is where pandas puts them for descending sorts. -/
def scoreGe : Option ℚ → Option ℚ → Bool
  | _, none => true
  | none, some _ => false
  | some x, some y => y ≤ x

/-- The sort key of the final `sort_values` call, as a relation on rows. -/
def scoredLe (a b : ScoredRow) : Prop :=
  scoreGe a.match_score b.match_score = true

instance : DecidableRel scoredLe := fun a b => by
  unfold scoredLe; infer_instance

/-- `combined_df.sort_values("match_score", ascending=False)`. -/
def sortScored (l : List ScoredRow) : List ScoredRow :=
  l.insertionSort scoredLe

/-- Lexicographic string comparison, as used by pandas when an
`how="outer"` merge sorts its join keys. -/
def strLe (a b : String) : Bool :=
  (compare a b).isLE

/-- Sort a list of join keys ascending, as pandas does for the keys of an
`how="outer"` merge. -/
def sortKeys (l : List String) : List String :=
  l.insertionSort (fun a b => strLe a b = true)

instance : DecidableRel (fun a b => strLe a b = true) := fun a b => by
  infer_instance

/-- Maximum of a column of (non-`NaN`) floats, `none` on an empty column:
pandas `Series.max()`. -/
def listMaxQ : List ℚ → Option ℚ
  | [] => none
  | x :: xs =>
    match listMaxQ xs with
    | none => some x
    | some m => some (max x m)

/-- Maximum of a float column that may contain `NaN` cells: pandas `.max()`
skips `NaN` (`skipna=True`), and is itself `NaN` when every cell is. -/
def nanMax (l : List (Option ℚ)) : Option ℚ :=
  listMaxQ (l.filterMap id)

/-- The cell `job_title_distance * 0.6 + job_description_distance * 0.4` of one
merged row: float arithmetic on a `NaN` operand yields `NaN`. -/
def hybridOf (r : MergedRow) : Option ℚ :=
  match r.job_title_distance, r.job_description_distance with
  | some t, some d => some (t * 0.6 + d * 0.4)
  | _, _ => none

/-- The cell `1 - hybrid_score / hybrid_score.max()`.  `NaN` operands propagate;
when the column maximum is `0` every present hybrid is also `0` (distances are
non-negative) and the `0/0` float division is `NaN`, modelled as `none`. -/
def matchScoreOf (h : Option ℚ) (m : Option ℚ) : Option ℚ :=
  match h, m with
  | some hv, some mv => if mv = 0 then none else some (1 - hv / mv)
  | _, _ => none

/-- The rows that an outer merge on `id` produces for one join key `i`, given
the rows of each input frame whose `id` equals `i`: both-sides rows pair up
(a cross product when a side holds several), one-sided rows get `NaN` cells. -/
def rowsFor (i : String) (ls : List DescRow) (rs : List TitleRow) : List MergedRow :=
  if ls.isEmpty then
    rs.map (fun r => ⟨i, none, none, some r.job_title, some r.job_title_distance⟩)
  else if rs.isEmpty then
    ls.map (fun l => ⟨i, some l.job_description, some l.job_description_distance, none, none⟩)
  else
    ls.flatMap (fun l =>
      rs.map (fun r =>
        ⟨i, some l.job_description, some l.job_description_distance,
          some r.job_title, some r.job_title_distance⟩))

/-- `pd.merge(job_desc_df, job_title_df, on="id", how="outer", ...)`: the union
of the join keys, sorted lexicographically (pandas sorts the keys of an outer
merge), each key contributing its matched rows. -/
def mergeOuter (ld : List DescRow) (lt : List TitleRow) : List MergedRow :=
  (sortKeys ((ld.map (·.id) ++ lt.map (·.id)).dedup)).flatMap
    (fun i => rowsFor i (ld.filter (fun r => r.id = i)) (lt.filter (fun r => r.id = i)))

/-- `merge_dataframes(job_desc_df, job_title_df=None)` from
`src/app/utils/recommendation/recommendation_utils.py`.

* `job_title_df is None`: rename `job_description_distance` to `match_score`,
  keep `["id", "match_score"]`, sort by `match_score` descending — the raw
  distance is returned as the score, with no normalization.
* otherwise: outer-merge on `id`, add the column
  `hybrid_score = job_title_distance * 0.6 + job_description_distance * 0.4`,
  add `match_score = 1 - hybrid_score / hybrid_score.max()`, keep
  `["id", "match_score"]`, sort by `match_score` descending. -/
def merge_dataframes (job_desc_df : List DescRow)
    (job_title_df : Option (List TitleRow) := none) : List ScoredRow :=
  match job_title_df with
  | none =>
    sortScored (job_desc_df.map
      (fun r => ⟨r.id, some r.job_description_distance⟩))
  | some title_df =>
    let combined := mergeOuter job_desc_df title_df
    let hybridCol := combined.map hybridOf
    let mx := nanMax hybridCol
    sortScored ((combined.zip hybridCol).map
      (fun p => ⟨p.1.id, matchScoreOf p.2 mx⟩))

/-- The column of maximal observed description distance,
`job_desc_df["job_description_distance"].max()`. -/
def maxDistOf (df : List DescRow) : Option ℚ :=
  listMaxQ (df.map (·.job_description_distance))

/-- The cell `(1 - d / max) * 100` of the description-only scoring inlined in
the route handler `get_recommendations`
(`src/app/api/routes/recommendation_engine_services.py`, lines 279-283).
A zero maximum means every (non-negative) distance is zero and the `0/0`
float division is `NaN`, modelled as `none`. -/
def routeScoreCell (d : ℚ) : Option ℚ → Option ℚ
  | none => none
  | some m => if m = 0 then none else some ((1 - d / m) * 100)

/-- The description-only scoring and ranking of the route handler
`get_recommendations`: add
`match_score = (1 - distance / distance.max()) * 100`, keep
`["id", "match_score"]`, sort by `match_score` descending. -/
def routeMatchScores (df : List DescRow) : List ScoredRow :=
  let mx := maxDistOf df
  sortScored (df.map (fun r => ⟨r.id, routeScoreCell r.job_description_distance mx⟩))

/-! ## The `/recommendations` endpoint handler

`recommendations` in `src/app/api/recommendation_engine_services.py`.  The
handler body is one `try` block; any exception raised inside it is caught and
turned into a 500 JSON error response.  The external calls (CV download and
text representation, embedding creation, collection queries) are modelled as
`Except`-valued inputs: `.error` is the call raising, and the handler's
`.error` outcome is the 500 response of the `except` branch. -/

/-- Python truthiness of `req_data.search_query` (`if req_data.search_query:`):
`None` and the empty string are falsy. -/
def pyTruthy : Option String → Bool
  | none => false
  | some s => !(s == "")

/-- The `recommendations` handler.  In source order inside the `try` block:
CV download + text representation; if the search query is truthy, the title
embedding and the title-collection query; the CV embedding; the description
query; then `merge_dataframes`.  Every raised error propagates to the single
`except` clause. -/
def recommendationsHandler (search_query : Option String)
    (cvPrep : Except String Unit)
    (titleEmbed : Except String Unit)
    (titleQuery : Except String (List TitleRow))
    (cvEmbed : Except String Unit)
    (descQuery : Except String (List DescRow)) : Except String (List ScoredRow) := do
  let _ ← cvPrep
  let job_title_results : Option (List TitleRow) ←
    if pyTruthy search_query then do
      let _ ← titleEmbed
      let r ← titleQuery
      pure (some r)
    else
      pure none
  let _ ← cvEmbed
  let job_desc_df ← descQuery
  pure (merge_dataframes job_desc_df job_title_results)

/-! ## The `/recommendations` GET handler of the routes module

`get_recommendations` in `src/app/api/routes/recommendation_engine_services.py`.
The cached embedding is fetched with `user_cv_embeddings_collection.get(...)`;
on a cache miss the returned `embeddings` array is empty and the subscript
`cv_embedding["embeddings"][0]` raises `IndexError`, which the `except` block
turns into a 500 response — before any collection query is issued. -/

/-- Counters for the externally visible effects of one `get_recommendations`
call: how many collection queries were issued and how many embeddings were
computed from raw documents (the handler contains no `create_embedding` call,
so the latter is 0 on every path). -/
structure RecEffects where
  collectionQueries : Nat
  embeddingComputations : Nat
deriving DecidableEq, Repr

/-- The `get_recommendations` handler: resolve the cached embedding, query the
description collection, score with the inlined `(1 - d / max) * 100`
normalization, sort, respond.  `cacheEmbeddings` is the `embeddings` array of
the cache lookup (empty on a miss); `descQuery` is the outcome of the
description-collection query for the cached vector. -/
def get_recommendations (cacheEmbeddings : List (List ℚ))
    (descQuery : Except String (List DescRow)) :
    Except String (List ScoredRow) × RecEffects :=
  match cacheEmbeddings.head? with
  | none => (.error "IndexError: list index out of range", ⟨0, 0⟩)
  | some _cv_embedding =>
    match descQuery with
    | .error e => (.error e, ⟨1, 0⟩)
    | .ok job_desc_results => (.ok (routeMatchScores job_desc_results), ⟨1, 0⟩)

/-! ## Execution order of the external calls in `recommendations`

The handler is a single coroutine that `await`s each external call directly:
no task is spawned and no `gather` is used, so each call runs to completion
before the next statement executes.  The trace below lists the start and end
events of each awaited call in the source order of
`src/app/api/recommendation_engine_services.py`, lines 129-150. -/

/-- Start/end events of the awaited external calls of the handler. -/
inductive RecEvent
  | titleEmbedStart
  | titleEmbedEnd
  | titleQueryStart
  | titleQueryEnd
  | cvEmbedStart
  | cvEmbedEnd
  | descQueryStart
  | descQueryEnd
  | mergeStep
deriving DecidableEq, Repr

/-- The span of one directly awaited call: it starts and runs to completion
with nothing of this request interleaved. -/
def awaitSpan (s e : RecEvent) : List RecEvent := [s, e]

/-- The event trace of one `recommendations` call (all external calls
succeeding), in the source order of the handler body. -/
def recommendationsTrace (hasSearchQuery : Bool) : List RecEvent :=
  (if hasSearchQuery then
    awaitSpan .titleEmbedStart .titleEmbedEnd ++
      awaitSpan .titleQueryStart .titleQueryEnd
  else []) ++
    awaitSpan .cvEmbedStart .cvEmbedEnd ++
    awaitSpan .descQueryStart .descQueryEnd ++ [.mergeStep]

/-! ## Object-level model of `merge_dataframes` for the frame property

Pandas distinguishes operations that build a new frame (`rename` without
`inplace`, column selection `df[[...]]`, `pd.merge`, `sort_values`) from
in-place mutation (`df["col"] = series`).  `merge_dataframes` mutates only
`combined_df` — the fresh frame returned by `pd.merge` — when it assigns the
`hybrid_score` and `match_score` columns.  To state that the two argument
frames are left untouched, frames live in an explicit heap: each pandas
object is a cell, frame-building operations allocate a fresh cell, and column
assignment overwrites the cell of its target object. -/

/-- A row of `job_desc_df.rename(columns={"job_description_distance":
"match_score"})`: the renamed frame still carries the document column. -/
structure RenamedRow where
  id : String
  job_description : String
  match_score : ℚ
deriving DecidableEq, Repr

/-- A pandas frame object.  A `mergedC` cell carries the optional
`hybrid_score` and `match_score` columns added by the two in-place column
assignments (`none` = column not yet present; an inner `none` = `NaN` cell). -/
inductive Cell
  | descC (rows : List DescRow)
  | titleC (rows : List TitleRow)
  | renamedC (rows : List RenamedRow)
  | mergedC (rows : List MergedRow) (hybridCol : Option (List (Option ℚ)))
      (matchCol : Option (List (Option ℚ)))
  | scoredC (rows : List ScoredRow)
deriving DecidableEq, Repr

/-- The heap of live pandas objects; a reference is an index into it. -/
abbrev Heap := List Cell

/-- Allocate a fresh frame object, returning its reference. -/
def Heap.alloc (h : Heap) (c : Cell) : Heap × Nat :=
  (h ++ [c], h.length)

/-- Read a reference expected to hold a description frame. -/
def Heap.readDesc (h : Heap) (r : Nat) : Option (List DescRow) :=
  match h[r]? with
  | some (.descC rows) => some rows
  | _ => none

/-- Read a reference expected to hold a title frame. -/
def Heap.readTitle (h : Heap) (r : Nat) : Option (List TitleRow) :=
  match h[r]? with
  | some (.titleC rows) => some rows
  | _ => none

/-- `merge_dataframes` on heap-allocated frames.  Returns the final heap and
the reference of the returned frame (`none` if an argument reference does not
hold a frame of the argument's type).  Each step is annotated with the source
line it models. -/
def merge_dataframes_heap (h : Heap) (descRef : Nat) (titleRef : Option Nat) :
    Heap × Option Nat :=
  match Heap.readDesc h descRef with
  | none => (h, none)
  | some descRows =>
    match titleRef with
    | none =>
      -- job_desc_df = job_desc_df.rename(columns={...}): new frame, rebinds the local
      let renamed : List RenamedRow :=
        descRows.map (fun r => ⟨r.id, r.job_description, r.job_description_distance⟩)
      let (h1, _renameRef) := Heap.alloc h (.renamedC renamed)
      -- combined_df = job_desc_df[["id", "match_score"]]: new frame
      let selected : List ScoredRow := renamed.map (fun r => ⟨r.id, some r.match_score⟩)
      let (h2, _selectRef) := Heap.alloc h1 (.scoredC selected)
      -- return combined_df.sort_values("match_score", ascending=False): new frame
      let (h3, outRef) := Heap.alloc h2 (.scoredC (sortScored selected))
      (h3, some outRef)
    | some tRef =>
      match Heap.readTitle h tRef with
      | none => (h, none)
      | some titleRows =>
        -- combined_df = pd.merge(job_desc_df, job_title_df, on="id", how="outer", ...):
        -- a fresh frame, aliasing neither argument
        let mergedRows := mergeOuter descRows titleRows
        let (h1, mergeRef) := Heap.alloc h (.mergedC mergedRows none none)
        -- combined_df["hybrid_score"] = ...: in-place column assignment on combined_df
        let hybridCol := mergedRows.map hybridOf
        let h2 := h1.set mergeRef (.mergedC mergedRows (some hybridCol) none)
        -- combined_df["match_score"] = 1 - hybrid / hybrid.max(): in-place assignment
        let mx := nanMax hybridCol
        let matchCol := hybridCol.map (fun hv => matchScoreOf hv mx)
        let h3 := h2.set mergeRef (.mergedC mergedRows (some hybridCol) (some matchCol))
        -- combined_df = combined_df[["id", "match_score"]]: new frame, rebinds the local
        let selected : List ScoredRow :=
          (mergedRows.zip matchCol).map (fun p => ⟨p.1.id, p.2⟩)
        let (h4, _selectRef) := Heap.alloc h3 (.scoredC selected)
        -- return combined_df.sort_values("match_score", ascending=False): new frame
        let (h5, outRef) := Heap.alloc h4 (.scoredC (sortScored selected))
        (h5, some outRef)

theorem strLe_eq (a b : String) : strLe a b = (compare a b).isLE := rfl

/-! ## Helper lemmas -/

theorem sortScored_perm (l : List ScoredRow) : List.Perm (sortScored l) l :=
  List.perm_insertionSort scoredLe l

theorem mem_sortScored {l : List ScoredRow} {x : ScoredRow} :
    x ∈ sortScored l ↔ x ∈ l :=
  List.mem_insertionSort scoredLe

theorem listMaxQ_le {l : List ℚ} {m x : ℚ} (hm : listMaxQ l = some m)
    (hx : x ∈ l) : x ≤ m := by
  induction l generalizing m with
  | nil => cases hx
  | cons y ys ih =>
    rcases List.mem_cons.mp hx with hxy | hxys
    · subst hxy
      cases hys : listMaxQ ys with
      | none => simp [listMaxQ, hys] at hm; simp [hm]
      | some m' => simp [listMaxQ, hys] at hm; simp [← hm, le_max_iff]
    · cases hys : listMaxQ ys with
      | none =>
        cases ys with
        | nil => cases hxys
        | cons z zs => simp [listMaxQ] at hys; cases hys' : listMaxQ zs <;>
            simp [hys'] at hys
      | some m' =>
        have hxm' := ih hys hxys
        simp [listMaxQ, hys] at hm
        calc x ≤ m' := hxm'
          _ ≤ max y m' := le_max_right _ _
          _ = m := hm

theorem listMaxQ_eq_none {l : List ℚ} : listMaxQ l = none ↔ l = [] := by
  cases l with
  | nil => simp [listMaxQ]
  | cons x xs => simp only [listMaxQ]; cases h : listMaxQ xs <;> simp

instance : IsTrans ScoredRow scoredLe where
  trans a b c hab hbc := by
    unfold scoredLe scoreGe at *
    cases ha : a.match_score <;> cases hb : b.match_score <;>
      cases hc : c.match_score <;> simp_all
    exact le_trans hbc hab

instance : IsTotal ScoredRow scoredLe where
  total a b := by
    unfold scoredLe scoreGe
    cases a.match_score <;> cases b.match_score <;> simp
    exact le_total _ _

theorem sortScored_sorted (l : List ScoredRow) :
    (sortScored l).Pairwise scoredLe :=
  List.sorted_insertionSort scoredLe l

example : strLe "A" "B" = true := by decide
example : sortScored [⟨"B", some 1⟩, ⟨"A", some 1⟩] = [⟨"B", some 1⟩, ⟨"A", some 1⟩] := by decide
example : sortScored [⟨"B", some 1⟩, ⟨"A", some 2⟩, ⟨"C", none⟩] =
    [⟨"A", some 2⟩, ⟨"B", some 1⟩, ⟨"C", none⟩] := by decide
example : ((0.6 : ℚ) = 6 / 10) := by norm_num

-- Spec §8 scenario: description-only `[{A,0.1},{B,0.5}]` "expected" `[{A,100},{B,0}]`;
-- the merger actually returns the raw distances, worst first.
example : merge_dataframes [⟨"A", "a", 0.1⟩, ⟨"B", "b", 0.5⟩] none =
    [⟨"B", some 0.5⟩, ⟨"A", some 0.1⟩] := by
  norm_num [merge_dataframes, sortScored, scoredLe, scoreGe,
    List.insertionSort, List.orderedInsert]
-- The route handler's inlined scoring normalizes per batch: the best candidate
-- scores `(1 - 0.1/0.5) * 100 = 80` (not the `100` of the spec scenario).
example : routeMatchScores [⟨"A", "a", 0.1⟩, ⟨"B", "b", 0.5⟩] =
    [⟨"A", some 80⟩, ⟨"B", some 0⟩] := by
  norm_num [routeMatchScores, maxDistOf, listMaxQ, routeScoreCell,
    sortScored, scoredLe, scoreGe, List.insertionSort, List.orderedInsert]
-- Two-frame case: one-sided candidates keep NaN scores and sort last.
example : merge_dataframes [⟨"A", "a", 0.2⟩, ⟨"B", "b", 0.4⟩] (some [⟨"A", "ta", 0.1⟩, ⟨"C", "tc", 0.3⟩]) =
    [⟨"A", some 0⟩, ⟨"B", none⟩, ⟨"C", none⟩] := by
  norm_num [merge_dataframes, mergeOuter, sortKeys, rowsFor, hybridOf,
    matchScoreOf, nanMax, listMaxQ, strLe, sortScored, scoredLe, scoreGe,
    List.insertionSort, List.orderedInsert, List.dedup, List.filter,
    List.flatMap, List.zip, List.zipWith]

/-! ## Claim C1 -/

/-- C1, as stated, is false on the code: the description-only path of
`merge_dataframes` returns the raw distance as `match_score`.  On the input
`[("A", 150), ("B", 1)]` the output contains the similarity score `150 > 100`,
and the minimum-distance candidate `B` receives the minimum, not the maximum,
score. -/
theorem C1_counterexample :
    merge_dataframes [⟨"A", "docA", 150⟩, ⟨"B", "docB", 1⟩] none =
      [⟨"A", some 150⟩, ⟨"B", some 1⟩] ∧
    ¬((150 : ℚ) ≤ 100) ∧ (1 : ℚ) < 150 := by
  refine ⟨?_, by norm_num, by norm_num⟩
  decide

/-- C1 (amended): the `[0, 100]` bounds and the minimum-distance-wins property
hold for the description-only scoring inlined in the route handler
`get_recommendations` (similarity `(1 - d / max) * 100`), for every non-empty
result set with non-negative distances and positive maximum; the
`merge_dataframes` description-only path instead returns the raw distance as
the score. -/
theorem C1_route_scores_bounded_and_min_distance_wins
    (df : List DescRow) (m : ℚ) (hm : maxDistOf df = some m) (hpos : 0 < m)
    (hnn : ∀ r ∈ df, 0 ≤ r.job_description_distance) :
    (∀ s ∈ routeMatchScores df, ∃ q, s.match_score = some q ∧ 0 ≤ q ∧ q ≤ 100) ∧
    (∀ r ∈ df,
      (∀ r' ∈ df, r.job_description_distance ≤ r'.job_description_distance) →
      ∃ s ∈ routeMatchScores df, s.id = r.id ∧
        ∀ s' ∈ routeMatchScores df, ∀ q q',
          s.match_score = some q → s'.match_score = some q' → q' ≤ q) := by
  have hm0 : m ≠ 0 := ne_of_gt hpos
  have hcell : ∀ r ∈ df,
      routeScoreCell r.job_description_distance (maxDistOf df) =
        some ((1 - r.job_description_distance / m) * 100) := by
    intro r _hr
    rw [hm]
    simp [routeScoreCell, hm0]
  have hmem : ∀ s, s ∈ routeMatchScores df ↔
      s ∈ df.map (fun r =>
        ScoredRow.mk r.id (routeScoreCell r.job_description_distance (maxDistOf df))) := by
    intro s
    exact mem_sortScored
  constructor
  · intro s hs
    rcases List.mem_map.mp ((hmem s).mp hs) with ⟨r, hr, hsr⟩
    refine ⟨(1 - r.job_description_distance / m) * 100, ?_, ?_, ?_⟩
    · rw [← hsr]; exact hcell r hr
    · have hle : r.job_description_distance ≤ m :=
        listMaxQ_le hm (List.mem_map_of_mem _ hr)
      have : r.job_description_distance / m ≤ 1 := (div_le_one hpos).mpr hle
      nlinarith
    · have h0 : 0 ≤ r.job_description_distance := hnn r hr
      have : 0 ≤ r.job_description_distance / m := div_nonneg h0 (le_of_lt hpos)
      nlinarith
  · intro r hr hrmin
    refine ⟨⟨r.id, routeScoreCell r.job_description_distance (maxDistOf df)⟩,
      (hmem _).mpr (List.mem_map_of_mem _ hr), rfl, ?_⟩
    intro s' hs' q q' hq hq'
    rcases List.mem_map.mp ((hmem s').mp hs') with ⟨r', hr', hsr'⟩
    have hq1 : q = (1 - r.job_description_distance / m) * 100 := by
      have := hcell r hr
      simp only [this] at hq
      exact (Option.some.inj hq).symm
    have hq2 : q' = (1 - r'.job_description_distance / m) * 100 := by
      have := hcell r' hr'
      rw [← hsr'] at hq'
      simp only [this] at hq'
      exact (Option.some.inj hq').symm
    have hdle : r.job_description_distance ≤ r'.job_description_distance :=
      hrmin r' hr'
    have : r.job_description_distance / m ≤ r'.job_description_distance / m :=
      (div_le_div_iff_of_pos_right hpos).mpr hdle
    subst hq1 hq2
    nlinarith

/-- Witness for C1's amended theorem at the concrete result set
`[("A", 1), ("B", 2)]` (maximum distance `2`). -/
theorem C1_route_scores_witness :
    (∀ s ∈ routeMatchScores [⟨"A", "a", 1⟩, ⟨"B", "b", 2⟩],
      ∃ q, s.match_score = some q ∧ 0 ≤ q ∧ q ≤ 100) ∧
    (∀ r ∈ [DescRow.mk "A" "a" 1, DescRow.mk "B" "b" 2],
      (∀ r' ∈ [DescRow.mk "A" "a" 1, DescRow.mk "B" "b" 2],
        r.job_description_distance ≤ r'.job_description_distance) →
      ∃ s ∈ routeMatchScores [⟨"A", "a", 1⟩, ⟨"B", "b", 2⟩], s.id = r.id ∧
        ∀ s' ∈ routeMatchScores [⟨"A", "a", 1⟩, ⟨"B", "b", 2⟩], ∀ q q',
          s.match_score = some q → s'.match_score = some q' → q' ≤ q) :=
  C1_route_scores_bounded_and_min_distance_wins
    [⟨"A", "a", 1⟩, ⟨"B", "b", 2⟩] 2
    (by norm_num [maxDistOf, listMaxQ, max_def])
    (by norm_num)
    (by intro r hr; fin_cases hr <;> norm_num)

/-! ## Claim C2 -/

/-- C2, as stated, is false on the code: in a single-result batch (all
distances equal, here `1`), the route scoring gives
`(1 - 1/1) * 100 = 0`, not `100`. -/
theorem C2_counterexample :
    routeMatchScores [⟨"A", "docA", 1⟩] = [⟨"A", some 0⟩] ∧ (0 : ℚ) ≠ 100 := by
  constructor
  · norm_num [routeMatchScores, maxDistOf, listMaxQ, routeScoreCell,
      sortScored, scoredLe, scoreGe, List.insertionSort, List.orderedInsert]
  · norm_num

/-- C2 (amended): when all distances in a batch equal one positive value `d`
(including the degenerate single-result batch), the route scoring assigns
every candidate a similarity of exactly `0` — the division is by the positive
maximum `d`, so no division by zero occurs; the code has no special case
assigning `100`.  (When all distances are `0`, the `0/0` division instead
makes every score `NaN`.) -/
theorem C2_all_equal_distances_score_zero
    (df : List DescRow) (d : ℚ) (hne : df ≠ []) (hd : 0 < d)
    (hall : ∀ r ∈ df, r.job_description_distance = d) :
    ∀ s ∈ routeMatchScores df, s.match_score = some 0 := by
  have hmax : maxDistOf df = some d := by
    unfold maxDistOf
    induction df with
    | nil => exact absurd rfl hne
    | cons r rs ih =>
      have hr : r.job_description_distance = d := hall r (List.mem_cons_self r rs)
      cases rs with
      | nil => simp [listMaxQ, hr]
      | cons r' rs' =>
        have hrs := ih (by simp) (fun x hx => hall x (List.mem_cons_of_mem _ hx))
        simp only [List.map_cons, listMaxQ] at hrs ⊢
        rw [hrs, hr]
        simp [max_self]
  intro s hs
  rcases List.mem_map.mp (mem_sortScored.mp hs) with ⟨r, hr, hsr⟩
  have hrd : r.job_description_distance = d := hall r hr
  rw [← hsr]
  simp [routeScoreCell, hmax, hrd, ne_of_gt hd]

/-- Witness for C2's amended theorem: in the single-result batch `[("A", 1)]`
the output contains a row whose score is `0`. -/
theorem C2_all_equal_witness :
    ∃ s ∈ routeMatchScores [⟨"A", "docA", 1⟩], s.match_score = some 0 := by
  have hmem0 : DescRow.mk "A" "docA" 1 ∈ [DescRow.mk "A" "docA" 1] :=
    List.mem_singleton_self _
  have hmem : ScoredRow.mk "A" (routeScoreCell 1 (maxDistOf [⟨"A", "docA", 1⟩])) ∈
      routeMatchScores [⟨"A", "docA", 1⟩] :=
    mem_sortScored.mpr (List.mem_map_of_mem
      (fun r : DescRow => ScoredRow.mk r.id
        (routeScoreCell r.job_description_distance
          (maxDistOf [⟨"A", "docA", 1⟩]))) hmem0)
  exact ⟨_, hmem, C2_all_equal_distances_score_zero [⟨"A", "docA", 1⟩] 1
    (by simp) (by norm_num) (by intro r hr; fin_cases hr; norm_num) _ hmem⟩

/-! ## Claim C3 -/

/-- C3, as stated, is false on the code: with a truthy search query, a failing
title query makes the whole `recommendations` handler fail — the exception
propagates to the handler's single `except` clause, which returns a 500 error
response instead of a Case-A-scored ranking. -/
theorem C3_counterexample :
    recommendationsHandler (some "engineer") (.ok ()) (.ok ())
      (.error "title query failed") (.ok ()) (.ok [⟨"A", "docA", 1⟩]) =
      .error "title query failed" := by
  rfl

/-- C3 (amended): whenever the title query is requested (truthy search query)
and fails, the `recommendations` handler surfaces the failure to the caller as
a failed request (a 500 error response), whatever the description query would
have returned; it does not fall back to description-only (Case A) scoring. -/
theorem C3_title_failure_fails_request
    (search_query : Option String) (e : String)
    (cvEmbed : Except String Unit) (descQuery : Except String (List DescRow))
    (hq : pyTruthy search_query = true) :
    recommendationsHandler search_query (.ok ()) (.ok ())
      (.error e) cvEmbed descQuery = .error e := by
  unfold recommendationsHandler
  simp [hq, Bind.bind, Except.bind]

/-- Witness for C3's amended theorem at a concrete failing title query. -/
theorem C3_title_failure_witness :
    recommendationsHandler (some "data engineer") (.ok ()) (.ok ())
      (.error "connection reset") (.ok ()) (.ok []) = .error "connection reset" :=
  C3_title_failure_fails_request (some "data engineer") "connection reset"
    (.ok ()) (.ok []) (by decide)

/-! ## Claim C9 -/

/-- C9, as stated, is false on the code: in the `recommendations` handler the
two collection queries are strictly sequential — the description query starts
only after the title query has completed, because each is `await`ed directly
in one coroutine.  Concretely, in the event trace of a request with a search
query, the description-query start does not precede the title-query end. -/
theorem C9_counterexample :
    ¬((recommendationsTrace true).indexOf RecEvent.descQueryStart <
      (recommendationsTrace true).indexOf RecEvent.titleQueryEnd) := by
  decide

/-- C9 (amended): the two collection queries of the `recommendations` handler
are issued sequentially, not concurrently: whenever the title query occurs in
the request's event trace, it completes strictly before the description query
starts. -/
theorem C9_queries_sequential (hasSearchQuery : Bool)
    (h : RecEvent.titleQueryEnd ∈ recommendationsTrace hasSearchQuery) :
    (recommendationsTrace hasSearchQuery).indexOf RecEvent.titleQueryEnd <
      (recommendationsTrace hasSearchQuery).indexOf RecEvent.descQueryStart := by
  cases hasSearchQuery with
  | true => decide
  | false => exact absurd h (by decide)

/-- Witness for C9's amended theorem on the trace with a search query. -/
theorem C9_queries_sequential_witness :
    (recommendationsTrace true).indexOf RecEvent.titleQueryEnd <
      (recommendationsTrace true).indexOf RecEvent.descQueryStart :=
  C9_queries_sequential true (by decide)

/-! ## Claim C8 -/

/-- C8: on a cache miss (the cache lookup returns an empty `embeddings` array,
as it does for a user with no prior ingest), `get_recommendations` fails — the
`cv_embedding["embeddings"][0]` subscript raises, and the `except` block turns
this into an error response — before any collection query is issued, and
without ever computing an embedding from raw documents (the handler contains
no embedding call on any path).  This raised `IndexError` is the code's
realization of the spec's `EmbeddingNotResolved` condition. -/
theorem C8_cache_miss_fails_without_query
    (descQuery : Except String (List DescRow)) :
    (get_recommendations [] descQuery).1 =
      .error "IndexError: list index out of range" ∧
    (get_recommendations [] descQuery).2.collectionQueries = 0 ∧
    (get_recommendations [] descQuery).2.embeddingComputations = 0 ∧
    (∀ emb dq, (get_recommendations emb dq).2.embeddingComputations = 0) := by
  refine ⟨rfl, rfl, rfl, ?_⟩
  intro emb dq
  unfold get_recommendations
  cases emb.head? <;> cases dq <;> rfl

/-! ## Merge membership lemmas -/

theorem rowsFor_id {i : String} {ls : List DescRow} {rs : List TitleRow}
    {r : MergedRow} (hr : r ∈ rowsFor i ls rs) : r.id = i := by
  unfold rowsFor at hr
  split at hr
  · rcases List.mem_map.mp hr with ⟨x, _, hx⟩
    rw [← hx]
  · split at hr
    · rcases List.mem_map.mp hr with ⟨x, _, hx⟩
      rw [← hx]
    · rcases List.mem_flatMap.mp hr with ⟨x, _, hx⟩
      rcases List.mem_map.mp hx with ⟨y, _, hy⟩
      rw [← hy]

theorem mem_mergeOuter {ld : List DescRow} {lt : List TitleRow} {r : MergedRow}
    (hr : r ∈ mergeOuter ld lt) :
    r ∈ rowsFor r.id (ld.filter (fun x => x.id = r.id))
      (lt.filter (fun x => x.id = r.id)) := by
  unfold mergeOuter at hr
  rcases List.mem_flatMap.mp hr with ⟨i, _, hi⟩
  have := rowsFor_id hi
  subst this
  exact hi

theorem zip_map_self {α β γ : Type} (f : α → β) (g : α × β → γ) :
    ∀ l : List α, (l.zip (l.map f)).map g = l.map (fun x => g (x, f x))
  | [] => rfl
  | x :: xs => by
    simp only [List.map_cons, List.zip_cons_cons, zip_map_self f g xs]

theorem merge_dataframes_some_eq (ld : List DescRow) (lt : List TitleRow) :
    merge_dataframes ld (some lt) =
      sortScored ((mergeOuter ld lt).map (fun r =>
        ⟨r.id, matchScoreOf (hybridOf r) (nanMax ((mergeOuter ld lt).map hybridOf))⟩)) := by
  show sortScored (((mergeOuter ld lt).zip ((mergeOuter ld lt).map hybridOf)).map
      (fun p => ⟨p.1.id, matchScoreOf p.2 (nanMax ((mergeOuter ld lt).map hybridOf))⟩)) = _
  rw [zip_map_self]

/-! ## Claim C4 -/

/-- C4, as stated, is false on the code: candidate `A` appears only in the
description input, and after the outer merge its title-side distance is `NaN`
(`none`) — it is not assigned the maximum observed title distance plus a
fallback — and both `A` and the title-only candidate `B` end with `NaN` match
scores. -/
theorem C4_counterexample :
    mergeOuter [⟨"A", "da", 2⟩] [⟨"B", "tb", 1⟩] =
      [⟨"A", some "da", some 2, none, none⟩,
        ⟨"B", none, none, some "tb", some 1⟩] ∧
    merge_dataframes [⟨"A", "da", 2⟩] (some [⟨"B", "tb", 1⟩]) =
      [⟨"A", none⟩, ⟨"B", none⟩] := by
  constructor <;> decide

/-- C4 (amended): in the two-result-set case, a candidate present only in the
description input keeps a `NaN` (undefined) title-side distance after the
outer merge — the code assigns no fallback — and consequently its hybrid and
match scores are `NaN` in the merger's output. -/
theorem C4_missing_side_stays_null (ld : List DescRow) (lt : List TitleRow)
    (i : String) (_hins : i ∈ ld.map (·.id)) (hnot : i ∉ lt.map (·.id)) :
    (∀ r ∈ mergeOuter ld lt, r.id = i → r.job_title_distance = none) ∧
    (∀ s ∈ merge_dataframes ld (some lt), s.id = i → s.match_score = none) := by
  have hfilter : lt.filter (fun x => x.id = i) = [] := by
    rw [List.filter_eq_nil_iff]
    intro a ha
    simp only [decide_eq_true_eq]
    intro hai
    exact hnot (List.mem_map.mpr ⟨a, ha, hai⟩)
  have part1 : ∀ r ∈ mergeOuter ld lt, r.id = i → r.job_title_distance = none := by
    intro r hr hri
    have hmem := mem_mergeOuter hr
    rw [hri, hfilter] at hmem
    unfold rowsFor at hmem
    split at hmem
    · simp at hmem
    · split at hmem
      · rcases List.mem_map.mp hmem with ⟨x, _, hx⟩
        rw [← hx]
      · simp at hmem
  refine ⟨part1, ?_⟩
  intro s hs hsi
  rw [merge_dataframes_some_eq] at hs
  rcases List.mem_map.mp (mem_sortScored.mp hs) with ⟨r, hr, hsr⟩
  have hri : r.id = i := by rw [← hsr] at hsi; exact hsi
  have htd : r.job_title_distance = none := part1 r hr hri
  rw [← hsr]
  simp [hybridOf, htd, matchScoreOf]

/-- Witness for C4's amended theorem at the concrete inputs of the
counterexample (candidate `"A"` is description-only). -/
theorem C4_missing_side_witness :
    (∀ r ∈ mergeOuter [⟨"A", "da", 2⟩] [⟨"B", "tb", 1⟩],
      r.id = "A" → r.job_title_distance = none) ∧
    (∀ s ∈ merge_dataframes [⟨"A", "da", 2⟩] (some [⟨"B", "tb", 1⟩]),
      s.id = "A" → s.match_score = none) :=
  C4_missing_side_stays_null [⟨"A", "da", 2⟩] [⟨"B", "tb", 1⟩] "A"
    (by decide) (by decide)

/-! ## Claim C5 -/

/-- C5, as stated, is false on the code: with description distances
`[("A", 0), ("B", 1)]` and title distances `[("A", 0), ("B", 1)]`, candidate
`A` has hybrid distance `0` and maximum-hybrid `1`, so the claimed formula
`(1 - hybrid / max) × 100` would give `100`, but the code computes
`1 - hybrid / max` without the `× 100` factor and outputs `1`. -/
theorem C5_counterexample :
    merge_dataframes [⟨"A", "da", 0⟩, ⟨"B", "db", 1⟩]
      (some [⟨"A", "ta", 0⟩, ⟨"B", "tb", 1⟩]) =
      [⟨"A", some 1⟩, ⟨"B", some 0⟩] ∧ (1 : ℚ) ≠ 100 := by
  constructor
  · norm_num [merge_dataframes, mergeOuter, sortKeys, rowsFor, hybridOf,
      matchScoreOf, nanMax, listMaxQ, strLe, sortScored, scoredLe, scoreGe,
      List.insertionSort, List.orderedInsert, List.dedup, List.filter,
      List.flatMap, List.zip, List.zipWith]
  · norm_num

/-- C5 (amended): for every candidate with both distances present, the merger
computes the hybrid distance `title_distance * 0.6 + description_distance * 0.4`
and the similarity `1 - hybrid / max_hybrid` — with no `× 100` factor, unlike
the description-only normalization inlined in the route handler. -/
theorem C5_hybrid_weighting_and_normalization
    (ld : List DescRow) (lt : List TitleRow) (r : MergedRow)
    (hr : r ∈ mergeOuter ld lt) (td dd : ℚ)
    (ht : r.job_title_distance = some td)
    (hd : r.job_description_distance = some dd) (M : ℚ)
    (hM : nanMax ((mergeOuter ld lt).map hybridOf) = some M) (hM0 : M ≠ 0) :
    ScoredRow.mk r.id (some (1 - (td * 0.6 + dd * 0.4) / M)) ∈
      merge_dataframes ld (some lt) := by
  rw [merge_dataframes_some_eq]
  apply mem_sortScored.mpr
  apply List.mem_map.mpr
  refine ⟨r, hr, ?_⟩
  simp [hybridOf, ht, hd, matchScoreOf, hM, hM0]

/-- Witness for C5's amended theorem: the single shared candidate `"A"` with
title distance `2` and description distance `1` has hybrid
`2 * 0.6 + 1 * 0.4 = 1.6` (the batch maximum) and score `1 - 1.6/1.6 = 0`. -/
theorem C5_hybrid_witness :
    ScoredRow.mk "A" (some (1 - ((2 : ℚ) * 0.6 + 1 * 0.4) / (16/10))) ∈
      merge_dataframes [⟨"A", "da", 1⟩] (some [⟨"A", "ta", 2⟩]) :=
  C5_hybrid_weighting_and_normalization [⟨"A", "da", 1⟩] [⟨"A", "ta", 2⟩]
    ⟨"A", some "da", some 1, some "ta", some 2⟩
    (by decide) 2 1 rfl rfl (16/10)
    (by norm_num [nanMax, mergeOuter, sortKeys, rowsFor, hybridOf, strLe,
      listMaxQ, List.dedup, List.filter, List.flatMap, List.insertionSort,
      List.orderedInsert])
    (by norm_num)

/-! ## Claim C6 -/

theorem filter_key_length_le_one {α : Type} (f : α → String) {l : List α}
    (h : (l.map f).Nodup) (i : String) :
    (l.filter (fun r => f r = i)).length ≤ 1 := by
  induction l with
  | nil => simp
  | cons x xs ih =>
    simp only [List.map_cons, List.nodup_cons] at h
    by_cases hx : f x = i
    · have hnil : xs.filter (fun r => f r = i) = [] := by
        rw [List.filter_eq_nil_iff]
        intro a ha hai
        rw [decide_eq_true_eq] at hai
        exact h.1 (List.mem_map.mpr ⟨a, ha, hai.trans hx.symm⟩)
      simp [List.filter_cons, hx, hnil]
    · simpa [List.filter_cons, hx] using ih h.2

theorem rowsFor_length_le_one {i : String} {ls : List DescRow} {rs : List TitleRow}
    (hls : ls.length ≤ 1) (hrs : rs.length ≤ 1) :
    (rowsFor i ls rs).length ≤ 1 := by
  unfold rowsFor
  cases ls with
  | nil => simpa using hrs
  | cons l ls' =>
    cases ls' with
    | cons l' ls'' => simp at hls
    | nil =>
      cases rs with
      | nil => simp
      | cons r rs' =>
        cases rs' with
        | cons r' rs'' => simp at hrs
        | nil => simp

theorem nodup_flatMap_keyed (g : String → List MergedRow) :
    ∀ {ids : List String}, ids.Nodup →
    (∀ i ∈ ids, (g i).length ≤ 1 ∧ ∀ r ∈ g i, r.id = i) →
    ((ids.flatMap g).map (·.id)).Nodup := by
  intro ids
  induction ids with
  | nil => simp
  | cons i is ih =>
    intro hnd hg
    rw [List.flatMap_cons, List.map_append]
    rcases hg i (List.mem_cons_self i is) with ⟨hlen, hid⟩
    apply List.Nodup.append
    · cases hgi : g i with
      | nil => simp
      | cons a as =>
        cases as with
        | cons a' as' => rw [hgi] at hlen; simp at hlen
        | nil => simp
    · exact ih (List.nodup_cons.mp hnd).2
        (fun j hj => hg j (List.mem_cons_of_mem _ hj))
    · intro a ha1 ha2
      rcases List.mem_map.mp ha1 with ⟨r, hr, hra⟩
      rcases List.mem_map.mp ha2 with ⟨r', hr', hra'⟩
      rcases List.mem_flatMap.mp hr' with ⟨j, hj, hrj⟩
      have h1 : a = i := by rw [← hra]; exact hid r hr
      have h2 : ∀ x ∈ g j, MergedRow.id x = j := (hg j (List.mem_cons_of_mem _ hj)).2
      have h3 : a = j := by rw [← hra']; exact h2 r' hrj
      exact (List.nodup_cons.mp hnd).1 (h1 ▸ h3 ▸ hj)

theorem mergeOuter_ids_nodup (ld : List DescRow) (lt : List TitleRow)
    (h1 : (ld.map (·.id)).Nodup) (h2 : (lt.map (·.id)).Nodup) :
    ((mergeOuter ld lt).map (·.id)).Nodup := by
  unfold mergeOuter
  apply nodup_flatMap_keyed
  · exact ((List.perm_insertionSort _ _).nodup_iff).mpr
      (List.nodup_dedup _)
  · intro i _hi
    refine ⟨rowsFor_length_le_one
      (filter_key_length_le_one (fun r : DescRow => r.id) h1 i)
      (filter_key_length_le_one (fun r : TitleRow => r.id) h2 i), ?_⟩
    intro r hr
    exact rowsFor_id hr

/-- C6: for every pair of input result sequences with per-sequence unique
candidate ids (as any single collection query returns, the collections being
keyed by job id), each candidate id appears at most once in the output of
`merge_dataframes` — in both the description-only and the outer-merged
two-frame paths — even when the two inputs overlap. -/
theorem C6_no_duplicate_ids (ld : List DescRow) (olt : Option (List TitleRow))
    (h1 : (ld.map (·.id)).Nodup)
    (h2 : ∀ lt, olt = some lt → (lt.map (·.id)).Nodup) :
    ((merge_dataframes ld olt).map (·.id)).Nodup := by
  cases olt with
  | none =>
    have hperm := (sortScored_perm (ld.map
      (fun r => ⟨r.id, some r.job_description_distance⟩))).map (·.id)
    apply hperm.nodup_iff.mpr
    simpa [List.map_map, Function.comp] using h1
  | some lt =>
    rw [merge_dataframes_some_eq]
    have hperm := (sortScored_perm ((mergeOuter ld lt).map (fun r =>
      ⟨r.id, matchScoreOf (hybridOf r)
        (nanMax ((mergeOuter ld lt).map hybridOf))⟩))).map (·.id)
    apply hperm.nodup_iff.mpr
    have := mergeOuter_ids_nodup ld lt h1 (h2 lt rfl)
    simpa [List.map_map, Function.comp] using this

/-- Witness for C6 at overlapping concrete inputs: descriptions for
`A`, `B` and titles for `B`, `C`; the output ids `A`, `B`, `C` are unique. -/
theorem C6_no_duplicate_ids_witness :
    ((merge_dataframes [⟨"A", "da", 1⟩, ⟨"B", "db", 2⟩]
      (some [⟨"B", "tb", 1⟩, ⟨"C", "tc", 2⟩])).map (·.id)).Nodup :=
  C6_no_duplicate_ids [⟨"A", "da", 1⟩, ⟨"B", "db", 2⟩]
    (some [⟨"B", "tb", 1⟩, ⟨"C", "tc", 2⟩])
    (by decide) (fun lt h => by cases h; decide)

/-! ## Claim C7 -/

/-- C7, as stated, is false on the code: on the description-only input
`[("B", 1), ("A", 1)]` both candidates tie at score `1`, and the (stable)
sort leaves `B` before `A`, even though `"A" < "B"` — ties are not ordered by
candidate id ascending. -/
theorem C7_counterexample :
    merge_dataframes [⟨"B", "db", 1⟩, ⟨"A", "da", 1⟩] none =
      [⟨"B", some 1⟩, ⟨"A", some 1⟩] ∧
    strLe "A" "B" = true ∧ "A" ≠ "B" := by
  refine ⟨?_, by decide, by decide⟩
  decide

/-- C7 (amended): the output of `merge_dataframes` is sorted by descending
`match_score` (with `NaN` scores last, where pandas places them); candidates
with equal scores keep their pre-sort relative order — the code applies no
id-ascending tie-break. -/
theorem C7_output_sorted_descending (ld : List DescRow)
    (olt : Option (List TitleRow)) :
    (merge_dataframes ld olt).Pairwise scoredLe := by
  cases olt with
  | none => exact sortScored_sorted _
  | some lt =>
    rw [merge_dataframes_some_eq]
    exact sortScored_sorted _

/-! ## Claim C10 -/

theorem getElem?_append_lt {α : Type} {l l' : List α} {i : Nat}
    (h : i < l.length) : (l ++ l')[i]? = l[i]? := by
  rw [List.getElem?_append]
  simp [h]

theorem set_append_length {α : Type} (l : List α) (c c' : α) :
    (l ++ [c]).set l.length c' = l ++ [c'] := by
  induction l with
  | nil => rfl
  | cons x xs ih => simp [List.set, ih]

theorem merge_dataframes_heap_noDesc (h : Heap) (descRef : Nat)
    (titleRef : Option Nat) (hd : Heap.readDesc h descRef = none) :
    merge_dataframes_heap h descRef titleRef = (h, none) := by
  unfold merge_dataframes_heap
  rw [hd]

theorem merge_dataframes_heap_noTitle (h : Heap) (descRef tRef : Nat)
    (descRows : List DescRow) (hd : Heap.readDesc h descRef = some descRows)
    (ht : Heap.readTitle h tRef = none) :
    merge_dataframes_heap h descRef (some tRef) = (h, none) := by
  unfold merge_dataframes_heap
  simp only [hd, ht]

theorem merge_dataframes_heap_caseA (h : Heap) (descRef : Nat)
    (descRows : List DescRow) (hd : Heap.readDesc h descRef = some descRows) :
    merge_dataframes_heap h descRef none =
      (h ++ [.renamedC (descRows.map (fun r =>
          ⟨r.id, r.job_description, r.job_description_distance⟩))] ++
        [.scoredC ((descRows.map (fun r : DescRow =>
          RenamedRow.mk r.id r.job_description r.job_description_distance)).map
            (fun r => ⟨r.id, some r.match_score⟩))] ++
        [.scoredC (sortScored ((descRows.map (fun r : DescRow =>
          RenamedRow.mk r.id r.job_description r.job_description_distance)).map
            (fun r => ⟨r.id, some r.match_score⟩)))],
        some (h.length + 2)) := by
  unfold merge_dataframes_heap Heap.alloc
  simp only [hd]
  simp [List.length_append]

theorem merge_dataframes_heap_caseB (h : Heap) (descRef tRef : Nat)
    (descRows : List DescRow) (titleRows : List TitleRow)
    (hd : Heap.readDesc h descRef = some descRows)
    (ht : Heap.readTitle h tRef = some titleRows) :
    merge_dataframes_heap h descRef (some tRef) =
      (h ++ [.mergedC (mergeOuter descRows titleRows)
          (some ((mergeOuter descRows titleRows).map hybridOf))
          (some (((mergeOuter descRows titleRows).map hybridOf).map
            (fun hv => matchScoreOf hv
              (nanMax ((mergeOuter descRows titleRows).map hybridOf)))))] ++
        [.scoredC (((mergeOuter descRows titleRows).zip
            (((mergeOuter descRows titleRows).map hybridOf).map
              (fun hv => matchScoreOf hv
                (nanMax ((mergeOuter descRows titleRows).map hybridOf))))).map
          (fun p => ⟨p.1.id, p.2⟩))] ++
        [.scoredC (sortScored ((((mergeOuter descRows titleRows).zip
            (((mergeOuter descRows titleRows).map hybridOf).map
              (fun hv => matchScoreOf hv
                (nanMax ((mergeOuter descRows titleRows).map hybridOf)))))).map
          (fun p => ⟨p.1.id, p.2⟩)))],
        some (h.length + 2)) := by
  unfold merge_dataframes_heap Heap.alloc
  simp only [hd, ht]
  rw [set_append_length, set_append_length]
  simp [List.length_append]

/-- C10: `merge_dataframes` never mutates its argument frames and returns a
newly allocated frame: running the heap model from any heap, every
pre-existing object (in particular both input frames) is unchanged in the
final heap, and the returned reference is fresh (it points past the initial
heap).  The only in-place pandas operations of the function — the two column
assignments — target the frame freshly allocated by `pd.merge`. -/
theorem C10_inputs_unchanged (h : Heap) (descRef : Nat) (titleRef : Option Nat)
    (r : Nat) (hr : r < h.length) :
    (merge_dataframes_heap h descRef titleRef).1[r]? = h[r]? ∧
    (∀ o, (merge_dataframes_heap h descRef titleRef).2 = some o →
      h.length ≤ o) := by
  cases hd : Heap.readDesc h descRef with
  | none =>
    rw [merge_dataframes_heap_noDesc h descRef titleRef hd]
    exact ⟨rfl, by intro o ho; cases ho⟩
  | some descRows =>
    cases titleRef with
    | none =>
      rw [merge_dataframes_heap_caseA h descRef descRows hd]
      refine ⟨?_, ?_⟩
      · rw [getElem?_append_lt, getElem?_append_lt, getElem?_append_lt hr]
        · simpa using Nat.lt_succ_of_lt hr
        · simpa [Nat.add_assoc] using lt_of_lt_of_le hr (by simp)
      · intro o ho
        simp only [Option.some.injEq] at ho
        subst ho
        simp
    | some tRef =>
      cases ht : Heap.readTitle h tRef with
      | none =>
        rw [merge_dataframes_heap_noTitle h descRef tRef descRows hd ht]
        exact ⟨rfl, by intro o ho; cases ho⟩
      | some titleRows =>
        rw [merge_dataframes_heap_caseB h descRef tRef descRows titleRows hd ht]
        refine ⟨?_, ?_⟩
        · rw [getElem?_append_lt, getElem?_append_lt, getElem?_append_lt hr]
          · simpa using Nat.lt_succ_of_lt hr
          · simpa [Nat.add_assoc] using lt_of_lt_of_le hr (by simp)
        · intro o ho
          simp only [Option.some.injEq] at ho
          subst ho
          simp

/-- Witness for C10 on a concrete two-frame heap: the cells holding the
description frame (reference 0) and the title frame (reference 1) are
unchanged by the call. -/
theorem C10_inputs_unchanged_witness :
    (merge_dataframes_heap [Cell.descC [⟨"A", "da", 1⟩],
      Cell.titleC [⟨"A", "ta", 2⟩]] 0 (some 1)).1[0]? =
      some (Cell.descC [⟨"A", "da", 1⟩]) ∧
    (merge_dataframes_heap [Cell.descC [⟨"A", "da", 1⟩],
      Cell.titleC [⟨"A", "ta", 2⟩]] 0 (some 1)).1[1]? =
      some (Cell.titleC [⟨"A", "ta", 2⟩]) := by
  have h0 := C10_inputs_unchanged [Cell.descC [⟨"A", "da", 1⟩],
    Cell.titleC [⟨"A", "ta", 2⟩]] 0 (some 1) 0 (by decide)
  have h1 := C10_inputs_unchanged [Cell.descC [⟨"A", "da", 1⟩],
    Cell.titleC [⟨"A", "ta", 2⟩]] 0 (some 1) 1 (by decide)
  exact ⟨h0.1.trans rfl, h1.1.trans rfl⟩
